import Mathlib

/-!
Verification development for the Telegram flight-deal monitoring bot
(`src/main.py`).  The Python source is shallowly embedded here:

* a Python `str` is modelled as a `List Nat` of Unicode code points
  (`strN` converts a Lean string literal);
* the regular expressions of the source are modelled by an explicit
  backtracking matcher (`reM`) over an AST (`Re`) that mirrors each
  pattern constructor for constructor; greedy quantifiers, alternation
  order and leftmost search match Python `re` semantics; `\d`, `\w`,
  `\s` and lower-casing are modelled on the ASCII + Cyrillic alphabets
  that the rule set uses;
* fallible code (the `datetime(...)` constructor, which raises
  `ValueError` on a non-calendar date) is modelled with `Except Unit`;
  the `try/except ValueError` around price parsing is modelled with
  `Option`;
* the JSON state file of `FileState` is modelled as an insertion-ordered
  association list from channel name to `ChannelState`; file I/O and the
  wall-clock `last_check` timestamp are not modelled.
-/

/-- Code points of a string: the model of a Python `str`. -/
def strN (s : String) : List Nat := s.toList.map Char.toNat

/-- ASCII decimal digit, the model of `\d` for the inputs in scope. -/
def isDigitN (c : Nat) : Bool := 48 ≤ c && c ≤ 57

/-- Whitespace, the model of `\s` / `str.strip` (ASCII whitespace set). -/
def isWs (c : Nat) : Bool := c == 32 || c == 9 || c == 10 || c == 13 || c == 11 || c == 12

/-- Word character, the model of `\w` on the Latin/Cyrillic/digit alphabet
of the rule set (ASCII alphanumerics, underscore, Cyrillic А-я and Ё/ё). -/
def isWordN (c : Nat) : Bool :=
  isDigitN c || (97 ≤ c && c ≤ 122) || (65 ≤ c && c ≤ 90) || c == 95 ||
  (1040 ≤ c && c ≤ 1103) || c == 1025 || c == 1105

/-- Lower-casing of one code point, the model of `str.lower` on the
Latin/Cyrillic alphabet of the rule set. -/
def lowerN (c : Nat) : Nat :=
  if 65 ≤ c && c ≤ 90 then c + 32
  else if 1040 ≤ c && c ≤ 1071 then c + 32
  else if c == 1025 then 1105
  else c

/-- Model of `text.lower()`. -/
def lowerStr (t : List Nat) : List Nat := t.map lowerN

/-- Does `hay` start with `needle`? -/
def listStartsWith : List Nat → List Nat → Bool
  | [], _ => true
  | _ :: _, [] => false
  | a :: as, b :: bs => a == b && listStartsWith as bs

/-- Model of the Python substring test `needle in hay`. -/
def isSub : List Nat → List Nat → Bool
  | n, [] => listStartsWith n []
  | n, c :: rest => listStartsWith n (c :: rest) || isSub n rest

/-- Decimal value of a digit string, the model of Python `int` on the
digit-only strings produced by the patterns. -/
def natOfDigits (s : List Nat) : Nat := s.foldl (fun a c => a * 10 + (c - 48)) 0

/-- Model of `str.strip()` (both ends, whitespace). -/
def stripWs (l : List Nat) : List Nat :=
  ((l.dropWhile (fun c => isWs c)).reverse.dropWhile (fun c => isWs c)).reverse

/-- Model of `str.splitlines()` for the `\n`, `\r\n` and `\r` breaks. -/
def pySplitlines : List Nat → List (List Nat)
  | [] => []
  | 13 :: 10 :: rest => [] :: pySplitlines rest
  | 13 :: rest => [] :: pySplitlines rest
  | 10 :: rest => [] :: pySplitlines rest
  | c :: rest =>
    match pySplitlines rest with
    | [] => [[c]]
    | l :: ls => (c :: l) :: ls

/-- Regular-expression AST mirroring the constructs used in `main.py`:
character classes, concatenation, ordered alternation, greedy star /
option, capture groups, negative lookahead `(?!...)`, the word boundary
`\b`, the negative word lookbehind `(?<!\w)` and lookahead `(?!\w)` of
`MOSCOW_DEPARTURE_PATTERN`, and `$`. -/
inductive Re where
  | eps : Re
  | cls : (Nat → Bool) → Re
  | cat : Re → Re → Re
  | alt : Re → Re → Re
  | star : Re → Re
  | opt : Re → Re
  | grp : Nat → Re → Re
  | nla : Re → Re
  | wb : Re
  | nwbBehind : Re
  | nwAhead : Re
  | eol : Re

/-- Capture list: group index with start/end positions (latest first). -/
abbrev Caps := List (Nat × Nat × Nat)

/-- Character of `t` at position `i`, if any. -/
def charAt? (t : List Nat) (i : Nat) : Option Nat := (t.drop i).head?

/-- Is the character at position `i` a word character? -/
def isWordAt (t : List Nat) (i : Nat) : Bool :=
  match charAt? t i with
  | some c => isWordN c
  | none => false

/-- Is the character before position `i` a word character? -/
def prevIsWord (t : List Nat) : Nat → Bool
  | 0 => false
  | j + 1 => isWordAt t j

/-- Python `\b`: exactly one side of the position is a word character. -/
def boundaryAt (t : List Nat) (i : Nat) : Bool := prevIsWord t i != isWordAt t i

/-- Backtracking matcher in continuation-passing style; alternation is
tried left to right and quantifiers are greedy, as in Python `re`.  The
fuel only bounds the recursion depth (one unit per constructor visited,
one per star iteration) and is chosen large enough below. -/
def reM (t : List Nat) : Nat → Re → Nat → Caps →
    (Nat → Caps → Option (Nat × Caps)) → Option (Nat × Caps)
  | 0, _, _, _, _ => none
  | fuel + 1, r, i, cs, k =>
    match r with
    | .eps => k i cs
    | .cls p =>
      match charAt? t i with
      | some c => if p c then k (i + 1) cs else none
      | none => none
    | .cat a b => reM t fuel a i cs (fun j cs2 => reM t fuel b j cs2 k)
    | .alt a b =>
      match reM t fuel a i cs k with
      | some r2 => some r2
      | none => reM t fuel b i cs k
    | .star a =>
      match reM t fuel a i cs
          (fun j cs2 => if j == i then none else reM t fuel (.star a) j cs2 k) with
      | some r2 => some r2
      | none => k i cs
    | .opt a =>
      match reM t fuel a i cs k with
      | some r2 => some r2
      | none => k i cs
    | .grp g a => reM t fuel a i cs (fun j cs2 => k j ((g, i, j) :: cs2))
    | .nla a =>
      match reM t fuel a i cs (fun j cs2 => some (j, cs2)) with
      | some _ => none
      | none => k i cs
    | .wb => if boundaryAt t i then k i cs else none
    | .nwbBehind => if prevIsWord t i then none else k i cs
    | .nwAhead => if isWordAt t i then none else k i cs
    | .eol => if i == t.length then k i cs else none

/-- Recursion-depth budget, ample for every pattern of the source. -/
def reFuel (t : List Nat) : Nat := t.length + 200

/-- Try to match `r` anchored at position `i`; returns the match end and
the captures of the first (leftmost-greedy) match. -/
def reMatchAt (t : List Nat) (r : Re) (i : Nat) : Option (Nat × Caps) :=
  reM t (reFuel t) r i [] (fun j cs => some (j, cs))

/-- Leftmost search from position `i` (first argument is a positional
countdown). -/
def reSearchAux (t : List Nat) (r : Re) : Nat → Nat → Option (Nat × Nat × Caps)
  | 0, _ => none
  | f + 1, i =>
    match reMatchAt t r i with
    | some (j, cs) => some (i, j, cs)
    | none => if i < t.length then reSearchAux t r f (i + 1) else none

/-- Model of `re.search`: start, end and captures of the leftmost match. -/
def reSearch (t : List Nat) (r : Re) : Option (Nat × Nat × Caps) :=
  reSearchAux t r (t.length + 1) 0

/-- Search starting at position `i`. -/
def reSearchFrom (t : List Nat) (r : Re) (i : Nat) : Option (Nat × Nat × Caps) :=
  reSearchAux t r (t.length + 1 - i) i

/-- Model of `re.finditer`: non-overlapping leftmost matches. -/
def reFinditerAux (t : List Nat) (r : Re) : Nat → Nat → List (Nat × Nat × Caps)
  | 0, _ => []
  | f + 1, i =>
    match reSearchFrom t r i with
    | none => []
    | some (s, e, cs) => (s, e, cs) :: reFinditerAux t r f (if e == s then e + 1 else e)

/-- All matches of `r` in `t`, in order. -/
def reFinditer (t : List Nat) (r : Re) : List (Nat × Nat × Caps) :=
  reFinditerAux t r (t.length + 1) 0

/-- Latest capture recorded for group `g`. -/
def capLookup : Caps → Nat → Option (Nat × Nat)
  | [], _ => none
  | (g, s, e) :: rest, g0 => if g == g0 then some (s, e) else capLookup rest g0

/-- Text of capture group `g` (Python `match.group(g)`). -/
def matchGroup (t : List Nat) (cs : Caps) (g : Nat) : List Nat :=
  match capLookup cs g with
  | some (s, e) => (t.drop s).take (e - s)
  | none => []

/-- Model of `re.findall` for a pattern with one group. -/
def reFindallGroup1 (t : List Nat) (r : Re) : List (List Nat) :=
  (reFinditer t r).map (fun x => matchGroup t x.2.2 1)

/-- Model of `re.findall` for a pattern without groups (whole matches). -/
def reFindallWhole (t : List Nat) (r : Re) : List (List Nat) :=
  (reFinditer t r).map (fun x => (t.drop x.1).take (x.2.1 - x.1))

/-- Literal string pattern. -/
def lit : List Nat → Re
  | [] => .eps
  | c :: rest => .cat (.cls (fun x => x == c)) (lit rest)

/-- Literal pattern from a Lean string literal. -/
def litS (s : String) : Re := lit (strN s)

/-- Ordered alternation of a list of patterns. -/
def altList : List Re → Re
  | [] => .cls (fun _ => false)
  | [r] => r
  | r :: rest => .alt r (altList rest)

/-- `r{n}`: exactly `n` copies. -/
def repExact : Re → Nat → Re
  | _, 0 => .eps
  | r, n + 1 => .cat r (repExact r n)

/-- Greedy chain of up to `n` further copies of `r`. -/
def optChain : Re → Nat → Re
  | _, 0 => .eps
  | r, n + 1 => .opt (.cat r (optChain r n))

/-- Greedy `r{lo,hi}`. -/
def repRange (r : Re) (lo hi : Nat) : Re := .cat (repExact r lo) (optChain r (hi - lo))

/-- Greedy `r{lo,}`. -/
def repAtLeast (r : Re) (lo : Nat) : Re := .cat (repExact r lo) (.star r)

/-- `\d`. -/
def reDigit : Re := .cls isDigitN

/-- `\s`. -/
def reWs : Re := .cls isWs

/-- `\s*`. -/
def wsStar : Re := .star reWs

/-- `\s+`. -/
def wsPlus : Re := repAtLeast reWs 1

/-- Target month of the search (`TARGET_MONTH = 3`, March). -/
def TARGET_MONTH : Nat := 3

/-- Target year of the search (`TARGET_YEAR = 2026`). -/
def TARGET_YEAR : Nat := 2026

/-- `SEND_IF_NO_DATE = True`: accept messages that carry no date. -/
def SEND_IF_NO_DATE : Bool := true

/-- `MIN_TEXT_LENGTH = 50`: minimum text length checked by the classifier. -/
def MIN_TEXT_LENGTH : Nat := 50

/-- `[./]` of the date patterns. -/
def dotSlash : Re := .cls (fun c => c == 46 || c == 47)

/-- `[.,]` separator class of the price patterns. -/
def sepCl : Re := .cls (fun c => c == 46 || c == 44)

/-- Group 1 of the price patterns: `(\d{1,3}(?:[.,]\d{3})*(?:[.,]\d{2})?)`. -/
def priceNumRe : Re :=
  .grp 1 (.cat (repRange reDigit 1 3)
    (.cat (.star (.cat sepCl (repExact reDigit 3)))
      (.opt (.cat sepCl (repExact reDigit 2)))))

/-- `(?:руб|р\.?|₽)` (patterns are run on the lower-cased text, which
models the `re.IGNORECASE` flag of the source). -/
def rubAlt : Re :=
  altList [litS ("руб"), .cat (litS ("р")) (.opt (.cls (fun c => c == 46))), litS ("₽")]

/-- Price pattern 1: `(\d{1,3}(?:[.,]\d{3})*(?:[.,]\d{2})?)\s?(?:руб|р\.?|₽)\b`. -/
def pricePat1 : Re := .cat priceNumRe (.cat (.opt reWs) (.cat rubAlt .wb))

/-- Price pattern 2: `за\s+(\d{1,3}(?:[.,]\d{3})*(?:[.,]\d{2})?)\s*(?:руб|р\.?|₽)`. -/
def pricePat2 : Re := .cat (litS ("за")) (.cat wsPlus (.cat priceNumRe (.cat wsStar rubAlt)))

/-- Price pattern 3: `(\d{1,3}(?:[.,]\d{3})*(?:[.,]\d{2})?)\s*р(?!уб)`. -/
def pricePat3 : Re := .cat priceNumRe (.cat wsStar (.cat (litS ("р")) (.nla (litS ("уб")))))

/-- Price pattern 4: `(\d{4,6})\s*[pP]\b` (Latin p; lower-cased text). -/
def pricePat4 : Re :=
  .cat (.grp 1 (repRange reDigit 4 6)) (.cat wsStar (.cat (.cls (fun c => c == 112)) .wb))

/-- The four price patterns of `FlightSearchAnalyzer.price_patterns`, in order. -/
def pricePatterns : List Re := [pricePat1, pricePat2, pricePat3, pricePat4]

/-- Split a digit/dot string at `.` (code 46). -/
def splitDot : List Nat → List (List Nat)
  | [] => [[]]
  | 46 :: rest =>
    [] :: splitDot rest
  | c :: rest =>
    match splitDot rest with
    | [] => [[c]]
    | l :: ls => (c :: l) :: ls

/-- Model of Python `int(float(s))` on the digit/separator strings the
price group can produce: exactly one dot with digits around it truncates
to the integer part (exact-rational model of the float conversion; the
fractional part the patterns can produce has at most three digits, so
no rounding can reach the next integer).  Anything else raises
`ValueError`, modelled as `none`. -/
def pyIntFloat? (s : List Nat) : Option Nat :=
  match splitDot s with
  | [a, b] => if (a ++ b).all (fun c => isDigitN c) && decide (a ++ b ≠ []) then
      some (natOfDigits a)
    else none
  | _ => none

/-- Model of Python `int(s)` on a (nonempty) digit string; `none` models
`ValueError`. -/
def pyNatParse? (s : List Nat) : Option Nat :=
  if s.all (fun c => isDigitN c) && decide (s ≠ []) then some (natOfDigits s) else none

/-- One price candidate: whitespace removed, `,` replaced by `.`, then
parsed as `int(float(s))` when a dot is present and `int(s)` otherwise
(`None` models the caught `ValueError`). -/
def parsePriceStr (s : List Nat) : Option Nat :=
  let s1 := (s.filter (fun c => !isWs c)).map (fun c => if c == 44 then 46 else c)
  if s1.contains 46 then pyIntFloat? s1 else pyNatParse? s1

/-- Group-1 strings of all price-pattern matches, patterns in order. -/
def priceMatchStrs (text : List Nat) : List (List Nat) :=
  let tl := lowerStr text
  (pricePatterns.map (fun p => reFindallGroup1 tl p)).flatten

/-- Minimum of a nonempty list (Python `min` on ints). -/
def listMin? : List Nat → Option Nat
  | [] => none
  | x :: xs => some (xs.foldl Nat.min x)

/-- Model of `FlightSearchAnalyzer.extract_price`: every parsed candidate
in `[1000, 500000]` is kept and the minimum is returned, else `None`. -/
def extract_price (text : List Nat) : Option Nat :=
  if text == [] then none
  else
    listMin? (((priceMatchStrs text).filterMap parsePriceStr).filter
      (fun p => decide (1000 ≤ p ∧ p ≤ 500000)))

/-- A date candidate as stored in the dicts built by `extract_dates`
(keys `day`, `month`, `year`; the `full_date` datetime is determined by
these three and its constructibility is modelled by `datetimeOk`). -/
structure DateInfo where
  day : Nat
  month : Nat
  year : Nat
deriving DecidableEq, Repr

/-- Gregorian leap year, as in Python `datetime`. -/
def isLeap (y : Nat) : Bool := y % 4 == 0 && (y % 100 != 0 || y % 400 == 0)

/-- Days in a month, as in Python `datetime`. -/
def daysInMonth (y m : Nat) : Nat :=
  if m == 2 then (if isLeap y then 29 else 28)
  else if m == 4 || m == 6 || m == 9 || m == 11 then 30
  else 31

/-- Does `datetime(y, m, d)` construct without raising `ValueError`? -/
def datetimeOk (y m d : Nat) : Bool :=
  decide (1 ≤ y) && decide (y ≤ 9999) && decide (1 ≤ m) && decide (m ≤ 12) &&
  decide (1 ≤ d) && decide (d ≤ daysInMonth y m)

/-- Date pattern `(\d{1,2})[./](\d{1,2})[./](\d{2,4})`. -/
def reDDMMYY : Re :=
  .cat (.grp 1 (repRange reDigit 1 2))
    (.cat dotSlash
      (.cat (.grp 2 (repRange reDigit 1 2))
        (.cat dotSlash (.grp 3 (repRange reDigit 2 4)))))

/-- Date pattern `(\d{1,2})[./](\d{1,2})(?![./\d])`. -/
def reDDMM : Re :=
  .cat (.grp 1 (repRange reDigit 1 2))
    (.cat dotSlash
      (.cat (.grp 2 (repRange reDigit 1 2))
        (.nla (.cls (fun c => c == 46 || c == 47 || isDigitN c)))))

/-- Month-name pattern `(\d{1,2})\s+{stem}[а-я]*` (run on the lower-cased
text; `[а-я]` is the Cyrillic range without ё, as written in the source). -/
def stemRe (stem : List Nat) : Re :=
  .cat (.grp 1 (repRange reDigit 1 2))
    (.cat wsPlus (.cat (lit stem) (.star (.cls (fun c => 1072 ≤ c && c ≤ 1103)))))

/-- Raw `(day, month, year-string)` triples of the `ДД.ММ.ГГ` loop. -/
def ddmmyyRaw (text : List Nat) : List (Nat × Nat × List Nat) :=
  (reFinditer text reDDMMYY).map (fun x =>
    (natOfDigits (matchGroup text x.2.2 1),
     natOfDigits (matchGroup text x.2.2 2),
     matchGroup text x.2.2 3))

/-- Raw `(day, month)` pairs of the `ДД.ММ` loop. -/
def ddmmRaw (text : List Nat) : List (Nat × Nat) :=
  (reFinditer text reDDMM).map (fun x =>
    (natOfDigits (matchGroup text x.2.2 1),
     natOfDigits (matchGroup text x.2.2 2)))

/-- Two-digit year strings get 2000 added, others are taken as written. -/
def pyYear (ys : List Nat) : Nat :=
  if ys.length == 2 then 2000 + natOfDigits ys else natOfDigits ys

/-- The `ДД.ММ.ГГ` loop body: plausibility guard, then the `datetime`
construction (which can raise, aborting the whole extraction), then the
append.  Candidates failing the guard are silently skipped. -/
def buildFullDates : List (Nat × Nat × List Nat) → Except Unit (List DateInfo)
  | [] => .ok []
  | (d, m, ys) :: rest =>
    if 1 ≤ m ∧ m ≤ 12 ∧ 1 ≤ d ∧ d ≤ 31 then
      if datetimeOk (pyYear ys) m d then
        match buildFullDates rest with
        | .ok l => .ok (⟨d, m, pyYear ys⟩ :: l)
        | .error e => .error e
      else .error ()
    else buildFullDates rest

/-- The `ДД.ММ` loop body; the year is always `TARGET_YEAR`. -/
def buildNoYear : List (Nat × Nat) → Except Unit (List DateInfo)
  | [] => .ok []
  | (d, m) :: rest =>
    if 1 ≤ m ∧ m ≤ 12 ∧ 1 ≤ d ∧ d ≤ 31 then
      if datetimeOk TARGET_YEAR m d then
        match buildNoYear rest with
        | .ok l => .ok (⟨d, m, TARGET_YEAR⟩ :: l)
        | .error e => .error e
      else .error ()
    else buildNoYear rest

/-- The `"5 марта"` loop body for one month stem; the year is always
`TARGET_YEAR`. -/
def buildMonthName (mnum : Nat) : List Nat → Except Unit (List DateInfo)
  | [] => .ok []
  | d :: rest =>
    if 1 ≤ d ∧ d ≤ 31 then
      if datetimeOk TARGET_YEAR mnum d then
        match buildMonthName mnum rest with
        | .ok l => .ok (⟨d, mnum, TARGET_YEAR⟩ :: l)
        | .error e => .error e
      else .error ()
    else buildMonthName mnum rest

/-- The `months_ru` table of `extract_dates`, in insertion order (note:
it has `мая` for May and no `май`). -/
def monthsRu : List (List Nat × Nat) :=
  [(strN ("январ"), 1), (strN ("феврал"), 2), (strN ("март"), 3), (strN ("апрел"), 4),
   (strN ("мая"), 5), (strN ("июн"), 6), (strN ("июл"), 7), (strN ("август"), 8),
   (strN ("сентябр"), 9), (strN ("октябр"), 10), (strN ("ноябр"), 11), (strN ("декабр"), 12)]

/-- Day numbers captured by the stem pattern in the lower-cased text. -/
def stemDays (tl : List Nat) (stem : List Nat) : List Nat :=
  (reFinditer tl (stemRe stem)).map (fun x => natOfDigits (matchGroup tl x.2.2 1))

/-- The month-name loops, one per stem of `monthsRu`, in order. -/
def buildStems : List (List Nat × Nat) → List Nat → Except Unit (List DateInfo)
  | [], _ => .ok []
  | (stem, num) :: rest, tl =>
    match buildMonthName num (stemDays tl stem) with
    | .error e => .error e
    | .ok l1 =>
      match buildStems rest tl with
      | .error e => .error e
      | .ok l2 => .ok (l1 ++ l2)

/-- All `"5 марта"`-shaped candidates of a text. -/
def datesMonthName (text : List Nat) : Except Unit (List DateInfo) :=
  buildStems monthsRu (lowerStr text)

/-- The dedup pass of `extract_dates`: keep the first occurrence of each
`(day, month, year)` key (the f-string key of the source is injective in
the triple), skipping entries with a falsy day or month. -/
def dedupDatesAux : List (Nat × Nat × Nat) → List DateInfo → List DateInfo
  | _, [] => []
  | seen, d :: rest =>
    if (d.day, d.month, d.year) ∉ seen ∧ d.day ≠ 0 ∧ d.month ≠ 0 then
      d :: dedupDatesAux ((d.day, d.month, d.year) :: seen) rest
    else dedupDatesAux seen rest

/-- Deduplicate date candidates by `(day, month, year)`. -/
def dedupDates (l : List DateInfo) : List DateInfo := dedupDatesAux [] l

/-- Model of `FlightSearchAnalyzer.extract_dates`: the three date shapes
are scanned in source order, pooled and deduplicated; an invalid calendar
date passing the `1..31`/`1..12` guard raises (`Except.error`). -/
def extract_dates (text : List Nat) : Except Unit (List DateInfo) :=
  if text == [] then .ok []
  else
    match buildFullDates (ddmmyyRaw text) with
    | .error e => .error e
    | .ok l1 =>
      match buildNoYear (ddmmRaw text) with
      | .error e => .error e
      | .ok l2 =>
        match datesMonthName text with
        | .error e => .error e
        | .ok l3 => .ok (dedupDates (l1 ++ l2 ++ l3))

/-- The `DESTINATIONS` word list (each entry is `\b`-bounded in the
source pattern). -/
def destStems : List (List Nat) :=
  [strN ("индия"), strN ("india"), strN ("гоа"), strN ("goa"), strN ("дели"), strN ("delhi"),
   strN ("del"), strN ("мумбаи"), strN ("mumbai"), strN ("bom"), strN ("кожикоде"),
   strN ("calicut"), strN ("ccj")]

/-- `DEST_PATTERN`: the ordered alternation of the word-bounded
destination terms (case-insensitivity is modelled by matching against the
lower-cased text). -/
def destRe : Re := altList (destStems.map (fun s => .cat .wb (.cat (lit s) .wb)))

/-- Model of `FlightSearchAnalyzer.has_india_destination`. -/
def has_india_destination (text : List Nat) : Bool :=
  if text == [] then false else (reSearch (lowerStr text) destRe).isSome

/-- First-occurrence dedup; models `list(set(...))` of the destination
list (CPython set iteration order is unspecified, so theorems treat the
result as a set). -/
def dedupFirstAux : List (List Nat) → List (List Nat) → List (List Nat)
  | _, [] => []
  | seen, x :: rest =>
    if x ∈ seen then dedupFirstAux seen rest
    else x :: dedupFirstAux (x :: seen) rest

/-- Model of `list(set(re.findall(DEST_PATTERN, text.lower())))`. -/
def destList (text : List Nat) : List (List Nat) :=
  dedupFirstAux [] (reFindallWhole (lowerStr text) destRe)

/-- The `month_names` table of `extract_months_from_text`, in insertion
order (it has both `май` and `мая` mapping to 5). -/
def monthNamePairs : List (List Nat × Nat) :=
  [(strN ("январ"), 1), (strN ("феврал"), 2), (strN ("март"), 3), (strN ("апрел"), 4),
   (strN ("май"), 5), (strN ("мая"), 5), (strN ("июн"), 6), (strN ("июл"), 7),
   (strN ("август"), 8), (strN ("сентябр"), 9), (strN ("октябр"), 10),
   (strN ("ноябр"), 11), (strN ("декабр"), 12)]

/-- Model of `FlightSearchAnalyzer.extract_months_from_text`: all month
numbers whose stem occurs as a substring of the lower-cased text. -/
def extract_months_from_text (text : List Nat) : List Nat :=
  ((monthNamePairs.filter (fun p => isSub p.1 (lowerStr text))).map (fun p => p.2))

/-- The departure signal returned by `_detect_departure` (a dict with
keys `explicit`, `is_moscow`, `value` in the source; `is_moscow` is
`None`/`True`/`False`, modelled as `Option Bool`). -/
structure Departure where
  explicit : Bool
  is_moscow : Option Bool
  value : Option (List Nat)
deriving DecidableEq, Repr

/-- The `DEPARTURE_CITIES` list (Moscow and its airports). -/
def depCities : List (List Nat) :=
  [strN ("москва"), strN ("moscow"), strN ("msk"), strN ("mow"), strN ("внуково"),
   strN ("vko"), strN ("шереметьево"), strN ("svo"), strN ("домодедово"),
   strN ("dme"), strN ("жуковский"), strN ("zia")]

/-- `MOSCOW_DEPARTURE_PATTERN`: `(?<!\w)(москва|moscow|...)(?!\w)`
(matched against already lower-cased strings). -/
def reMoscow : Re := .cat .nwbBehind (.cat (.grp 1 (altList (depCities.map lit))) .nwAhead)

/-- The stop-word set of `_detect_departure`. -/
def depStopwords : List (List Nat) :=
  [strN ("перелетотель"), strN ("перелётотель"), strN ("перелет"), strN ("перелёт"),
   strN ("отель"), strN ("тур"), strN ("туры"), strN ("сибирь")]

/-- `(?:вылет|departure)\s*(?:из|from)\s*[:\-]?\s*(.*)$` (the line it is
run on is already lower-cased; `.` excludes `\n`, `$` is end of line). -/
def reDepRest : Re :=
  .cat (.alt (litS ("вылет")) (litS ("departure")))
    (.cat wsStar
      (.cat (.alt (litS ("из")) (litS ("from")))
        (.cat wsStar
          (.cat (.opt (.cls (fun c => c == 58 || c == 45)))
            (.cat wsStar (.cat (.grp 1 (.star (.cls (fun c => c != 10)))) .eol))))))

/-- `#([a-zа-яё][\w\-]{2,})`: hashtag token after `вылет из`. -/
def reHashTok : Re :=
  .cat (.cls (fun c => c == 35))
    (.grp 1 (.cat (.cls (fun c => (97 ≤ c && c ≤ 122) || (1072 ≤ c && c ≤ 1103) || c == 1105))
      (repAtLeast (.cls (fun c => isWordN c || c == 45)) 2)))

/-- `[a-zа-яё][a-zа-яё\-]{2,}`: plain token after `вылет из`. -/
def rePlainTok : Re :=
  .cat (.cls (fun c => (97 ≤ c && c ≤ 122) || (1072 ≤ c && c ≤ 1103) || c == 1105))
    (repAtLeast (.cls (fun c =>
      (97 ≤ c && c ≤ 122) || (1072 ≤ c && c ≤ 1103) || c == 1105 || c == 45)) 2)

/-- First candidate token that is not a stop word (the `for c in
candidates` loop). -/
def depFirstValue : List (List Nat) → Option (List Nat)
  | [] => none
  | c :: rest =>
    let cn := lowerStr (stripWs c)
    if cn ∈ depStopwords then depFirstValue rest else some cn

/-- One iteration of the line loop of `_detect_departure` applied to the
first qualifying line; scans lines in order and stops at the first line
containing a departure keyword and a `" из"`/`" from"` marker. -/
def depScanLines : List (List Nat) → Departure
  | [] => ⟨false, none, none⟩
  | raw :: rest =>
    let ll := lowerStr (stripWs raw)
    if !(isSub (strN ("вылет")) ll) && !(isSub (strN ("departure")) ll) then
      depScanLines rest
    else if !(isSub (strN (" из")) ll) && !(isSub (strN (" from")) ll) then
      depScanLines rest
    else
      let rst :=
        match reSearch ll reDepRest with
        | some (_, _, cs) => matchGroup ll cs 1
        | none => ll
      let hashCands := reFindallGroup1 rst reHashTok
      let candidates := if hashCands.isEmpty then reFindallWhole rst rePlainTok else hashCands
      match depFirstValue candidates with
      | none => ⟨true, none, none⟩
      | some v =>
        if (reSearch v reMoscow).isSome || (reSearch rst reMoscow).isSome then
          ⟨true, some true, some v⟩
        else ⟨true, some false, some v⟩

/-- Model of `FlightSearchAnalyzer._detect_departure`. -/
def detect_departure (text : List Nat) : Departure :=
  if text == [] then ⟨false, none, none⟩ else depScanLines (pySplitlines text)

/-- The evidence dict attached to an accepted verdict of `is_relevant`
(keys `destinations`, `target_month_dates`, `price`, `departure`,
`reason`).  Rejected verdicts carry the empty dict, modelled as `none`
at the call site. -/
structure Evidence where
  destinations : List (List Nat)
  target_month_dates : List DateInfo
  price : Option Nat
  departure : Departure
  reason : List Nat
deriving DecidableEq, Repr

/-- The cruise/ship exclusion keywords of `is_relevant`. -/
def excludeKeywords : List (List Nat) :=
  [strN ("круиз"), strN ("круизы"), strN ("cruise"), strN ("корабль"),
   strN ("ship"), strN ("теплоход")]

/-- Does any exclusion keyword occur in the lower-cased text? -/
def excludeHit (text : List Nat) : Bool :=
  excludeKeywords.any (fun k => isSub k (lowerStr text))

/-- Model of `FlightSearchAnalyzer.is_relevant`: the ordered gate
pipeline of the source.  All rejecting branches return `(False, {})`,
modelled as `.ok (false, none)`; the `ValueError` that `extract_dates`
can raise propagates as `.error`. -/
def is_relevant (text : List Nat) : Except Unit (Bool × Option Evidence) :=
  if text == [] || decide (text.length < MIN_TEXT_LENGTH) then .ok (false, none)
  else if !has_india_destination text then .ok (false, none)
  else if excludeHit text then .ok (false, none)
  else
    let departure := detect_departure text
    if departure.explicit && departure.is_moscow == some false then .ok (false, none)
    else
      match extract_dates text with
      | .error e => .error e
      | .ok all_dates =>
        let mentioned := extract_months_from_text text
        let price := extract_price text
        let target_month_dates := all_dates.filter (fun d => d.month == TARGET_MONTH)
        if target_month_dates.length > 0 then
          .ok (true, some ⟨destList text, target_month_dates, price, departure,
            strN ("exact_dates")⟩)
        else if (TARGET_MONTH ∈ mentioned) && SEND_IF_NO_DATE then
          .ok (true, some ⟨destList text, [], price, departure,
            strN ("march_mentioned")⟩)
        else if all_dates.isEmpty && SEND_IF_NO_DATE then
          .ok (true, some ⟨destList text, [], price, departure,
            strN ("no_dates")⟩)
        else .ok (false, none)

/-- Per-channel entry of the JSON state: `last_id` and `processed_ids`
may each be absent (`state[channel]` starts as `{}`).  The `last_check`
wall-clock timestamp written by `set_last_id` is not modelled. -/
structure ChannelState where
  last_id : Option Int := none
  processed_ids : Option (List Int) := none
deriving DecidableEq, Repr

/-- The state dict of `FileState`: insertion-ordered channel map. -/
abbrev BotState := List (List Nat × ChannelState)

/-- Dict lookup `state.get(channel)`. -/
def lookupCh : BotState → List Nat → Option ChannelState
  | [], _ => none
  | (k, v) :: rest, ch => if k = ch then some v else lookupCh rest ch

/-- `if channel not in state: state[channel] = {}` followed by a mutation
of `state[channel]`; a fresh entry is appended in insertion order. -/
def updateCh : BotState → List Nat → (ChannelState → ChannelState) → BotState
  | [], ch, f => [(ch, f {})]
  | (k, v) :: rest, ch, f =>
    if k = ch then (k, f v) :: rest else (k, v) :: updateCh rest ch f

/-- Model of `FileState.get_last_id`:
`self.state.get(channel, {}).get("last_id", 0)`. -/
def get_last_id (st : BotState) (ch : List Nat) : Int :=
  (((lookupCh st ch).getD {}).last_id).getD 0

/-- Model of `FileState.set_last_id`: stores the given id unconditionally
(and the unmodelled `last_check` timestamp). -/
def set_last_id (st : BotState) (ch : List Nat) (message_id : Int) : BotState :=
  updateCh st ch (fun cs => { cs with last_id := some message_id })

/-- Model of `FileState.is_duplicate`: membership of the id in the
channel's `processed_ids` (absent channel ⇒ `False`). -/
def is_duplicate (st : BotState) (ch : List Nat) (message_id : Int) : Bool :=
  match lookupCh st ch with
  | none => false
  | some cs => decide (message_id ∈ cs.processed_ids.getD [])

/-- Model of `FileState.mark_processed`: append the id to the channel's
`processed_ids` and keep only the last 100 entries. -/
def mark_processed (st : BotState) (ch : List Nat) (message_id : Int) : BotState :=
  updateCh st ch (fun cs =>
    let p := cs.processed_ids.getD [] ++ [message_id]
    { cs with processed_ids := some (if p.length > 100 then p.drop (p.length - 100) else p) })

/-- Stored processed-id list of a channel (empty when absent), used to
state observations about the stored collection. -/
def processedOf (st : BotState) (ch : List Nat) : List Int :=
  (((lookupCh st ch).getD {}).processed_ids).getD []

/-- A fetched message: its id and its (possibly absent) text. -/
structure Msg where
  id : Int
  text : Option (List Nat)
deriving DecidableEq, Repr

/-- A match reported upward by the channel loop, keyed by the message id
(the link the source builds contains exactly this id; the rendered
preview/summary strings belong to the unspecified notification layer). -/
structure FoundMsg where
  id : Int
  details : Option Evidence
deriving DecidableEq, Repr

/-- Stable insertion of a message into an id-sorted list (inserted after
equal ids, as Python `list.sort` is stable). -/
def insertById (m : Msg) : List Msg → List Msg
  | [] => [m]
  | x :: xs => if x.id ≤ m.id then x :: insertById m xs else m :: x :: xs

/-- Model of `messages.sort(key=lambda x: x.id)`. -/
def sortById (l : List Msg) : List Msg := l.foldr insertById []

/-- The per-message loop of `monitor_channels`: skip duplicates, classify
messages with truthy text, collect matches, mark every visited id
processed.  The third component is `false` when `is_relevant` raised, in
which case the loop aborts (the per-channel `except` clause catches the
exception); state mutations already performed persist. -/
def processMsgs (ch : List Nat) : BotState → List FoundMsg → List Msg →
    BotState × List FoundMsg × Bool
  | st, found, [] => (st, found, true)
  | st, found, m :: rest =>
    if is_duplicate st ch m.id then processMsgs ch st found rest
    else
      match m.text with
      | some t =>
        if t ≠ [] then
          match is_relevant t with
          | .error _ => (st, found, false)
          | .ok (isMatch, det) =>
            let found2 := if isMatch then found ++ [⟨m.id, det⟩] else found
            processMsgs ch (mark_processed st ch m.id) found2 rest
        else processMsgs ch (mark_processed st ch m.id) found rest
      | none => processMsgs ch (mark_processed st ch m.id) found rest

/-- `max(m.id for m in new_messages)` (callers guarantee nonemptiness). -/
def pyMaxId : List Msg → Int
  | [] => 0
  | m :: rest => rest.foldl (fun a x => max a x.id) m.id

/-- One channel iteration of `monitor_channels`: read the cursor, sort
the fetched messages by id, keep those above the cursor, run the message
loop, and — unless the loop raised — advance the cursor to the maximum
visited id when there were new messages. -/
def runChannel (st : BotState) (ch : List Nat) (fetched : List Msg) :
    BotState × List FoundMsg :=
  let last := get_last_id st ch
  let news := (sortById fetched).filter (fun m => decide (last < m.id))
  match processMsgs ch st [] news with
  | (st1, found, ok) =>
    if ok && !news.isEmpty then (set_last_id st1 ch (pyMaxId news), found)
    else (st1, found)

/-- A monitored channel name used in concrete runs. -/
def chanA : List Nat := strN ("travelbelka")

/-- A channel name used in the cursor-regression example. -/
def chanB : List Nat := strN ("turs_sale")

/-- A channel name used in the duplicate-marking example. -/
def chanC : List Nat := strN ("piratesru")

/-- Key of the dedup pass of `extract_dates`. -/
def dateKey (d : DateInfo) : Nat × Nat × Nat := (d.day, d.month, d.year)

/-- Updating a channel entry and looking the same channel up yields the
updated entry (fresh entries start from the empty dict). -/
theorem lookupCh_updateCh_self (st : BotState) (ch : List Nat)
    (f : ChannelState → ChannelState) :
    lookupCh (updateCh st ch f) ch = some (f ((lookupCh st ch).getD {})) := by
  induction st with
  | nil => simp [updateCh, lookupCh]
  | cons kv rest ih =>
    obtain ⟨k, v⟩ := kv
    by_cases h : k = ch
    · simp [updateCh, lookupCh, h]
    · simp [updateCh, lookupCh, h, ih]

/-- After `set_last_id` the stored cursor is exactly the argument. -/
theorem get_last_id_set (st : BotState) (ch : List Nat) (m : Int) :
    get_last_id (set_last_id st ch m) ch = m := by
  simp [get_last_id, set_last_id, lookupCh_updateCh_self]

/-- `mark_processed` does not touch the stored cursor. -/
theorem get_last_id_mark (st : BotState) (ch : List Nat) (m : Int) :
    get_last_id (mark_processed st ch m) ch = get_last_id st ch := by
  simp [get_last_id, mark_processed, lookupCh_updateCh_self]

/-- The stored processed list after one `mark_processed` call. -/
theorem processedOf_mark (st : BotState) (ch : List Nat) (m : Int) :
    processedOf (mark_processed st ch m) ch =
      (if (processedOf st ch ++ [m]).length > 100
       then (processedOf st ch ++ [m]).drop ((processedOf st ch ++ [m]).length - 100)
       else processedOf st ch ++ [m]) := by
  simp [processedOf, mark_processed, lookupCh_updateCh_self]

/-- The element just appended survives the keep-last-100 truncation. -/
theorem mem_drop_append (m : Int) :
    ∀ (p : List Int) (k : Nat), k ≤ p.length → m ∈ (p ++ [m]).drop k := by
  intro p
  induction p with
  | nil =>
    intro k hk
    have hk0 : k = 0 := Nat.le_zero.mp hk
    subst hk0
    simp
  | cons a p ih =>
    intro k hk
    cases k with
    | zero => simp
    | succ k2 =>
      simpa using ih k2 (by simpa using hk)

/-- After `mark_processed` the id is a duplicate. -/
theorem is_duplicate_mark (st : BotState) (ch : List Nat) (m : Int) :
    is_duplicate (mark_processed st ch m) ch m = true := by
  simp only [is_duplicate, mark_processed, lookupCh_updateCh_self, Option.getD_some,
    decide_eq_true_eq]
  split
  · next h =>
    refine mem_drop_append m _ _ ?_
    simp only [List.length_append, List.length_singleton] at h ⊢
    omega
  · simp


/-- The message loop never touches the stored cursor of the channel. -/
theorem processMsgs_get_last_id (ch : List Nat) (msgs : List Msg) :
    ∀ (st : BotState) (found : List FoundMsg),
      get_last_id (processMsgs ch st found msgs).1 ch = get_last_id st ch := by
  induction msgs with
  | nil => intro st found; rfl
  | cons m rest ih =>
    intro st found
    obtain ⟨mid, mtext⟩ := m
    simp only [processMsgs]
    split
    · exact ih st found
    · cases mtext with
      | none => rw [ih, get_last_id_mark]
      | some t =>
        simp only []
        split
        · cases hrel : is_relevant t with
          | error e => rfl
          | ok pr =>
            obtain ⟨isMatch, det⟩ := pr
            rw [ih, get_last_id_mark]
        · rw [ih, get_last_id_mark]

/-- Folding `max` over message ids never drops below the start value. -/
theorem foldl_max_le_init (l : List Msg) :
    ∀ (a : Int), a ≤ l.foldl (fun acc x => max acc x.id) a := by
  induction l with
  | nil => intro a; exact le_refl a
  | cons x xs ih =>
    intro a
    exact le_trans (le_max_left a x.id) (ih (max a x.id))

/-- One channel run never decreases the stored cursor: the loop itself
leaves the cursor unchanged and the final `set_last_id` writes the
maximum of the ids that passed the `m.id > last_id` filter. -/
theorem runChannel_cursor_mono (st : BotState) (ch : List Nat) (fetched : List Msg) :
    get_last_id st ch ≤ get_last_id (runChannel st ch fetched).1 ch := by
  simp only [runChannel]
  set news := (sortById fetched).filter (fun m => decide (get_last_id st ch < m.id))
    with hnews
  rcases hp : processMsgs ch st [] news with ⟨st1, found, ok⟩
  dsimp only
  by_cases hok : (ok && !news.isEmpty) = true
  · rw [if_pos hok]
    show get_last_id st ch ≤ get_last_id (set_last_id st1 ch (pyMaxId news)) ch
    rw [get_last_id_set]
    have hne : news ≠ [] := by
      intro hnil
      rw [hnil] at hok
      simp at hok
    cases hn : news with
    | nil => exact absurd hn hne
    | cons n rest2 =>
      have hnmem : n ∈ news := by
        rw [hn]
        exact List.mem_cons_self n rest2
      rw [hnews] at hnmem
      have hlt : get_last_id st ch < n.id :=
        of_decide_eq_true (List.mem_filter.mp hnmem).2
      have hmax : n.id ≤ pyMaxId (n :: rest2) := foldl_max_le_init rest2 n.id
      omega
  · rw [if_neg hok]
    show get_last_id st ch ≤ get_last_id st1 ch
    have hkeep := processMsgs_get_last_id ch news st []
    rw [hp] at hkeep
    rw [hkeep]

/-- C2 (counterexample): `set_last_id` has no monotonicity guard — after
storing cursor 12 for a channel, a further call with the lower id 5
regresses the stored value to 5. -/
theorem set_last_id_regresses :
    get_last_id (set_last_id (set_last_id [] chanB 12) chanB 5) chanB = 5 ∧
    get_last_id (set_last_id [] chanB 12) chanB = 12 := ⟨rfl, rfl⟩

/-- C2 (amended): `set_last_id` stores exactly its argument, last writer
wins unconditionally; the stored cursor is nevertheless non-decreasing
across pipeline runs, because one channel iteration of
`monitor_channels` only ever advances it to the maximum of ids strictly
greater than the current cursor. -/
theorem cursor_last_writer_wins_and_pipeline_monotone :
    (∀ (st : BotState) (ch : List Nat) (m : Int),
      get_last_id (set_last_id st ch m) ch = m) ∧
    (∀ (st : BotState) (ch : List Nat) (fetched : List Msg),
      get_last_id st ch ≤ get_last_id (runChannel st ch fetched).1 ch) :=
  ⟨get_last_id_set, runChannel_cursor_mono⟩

/-- C3 (counterexample): calling `mark_processed` twice with the same
`(channel, message_id)` pair stores the id twice — the processed list
becomes `[7, 7]`, observably different from the `[7]` left by a single
call. -/
theorem mark_processed_duplicates_entries :
    processedOf (mark_processed (mark_processed [] chanC 7) chanC 7) chanC = [7, 7] ∧
    processedOf (mark_processed [] chanC 7) chanC = [7] := ⟨rfl, rfl⟩

/-- C3 (amended): after calling `mark_processed` twice with the same
pair, `is_duplicate` is true, but the second call observably appends a
second copy of the id to the stored processed list (subject only to the
keep-last-100 truncation). -/
theorem mark_processed_twice_behavior :
    ∀ (st : BotState) (ch : List Nat) (m : Int),
      is_duplicate (mark_processed (mark_processed st ch m) ch m) ch m = true ∧
      processedOf (mark_processed (mark_processed st ch m) ch m) ch =
        (if (processedOf (mark_processed st ch m) ch ++ [m]).length > 100
         then (processedOf (mark_processed st ch m) ch ++ [m]).drop
           ((processedOf (mark_processed st ch m) ch ++ [m]).length - 100)
         else processedOf (mark_processed st ch m) ch ++ [m]) :=
  fun st ch m =>
    ⟨is_duplicate_mark (mark_processed st ch m) ch m,
     processedOf_mark (mark_processed st ch m) ch m⟩

/-- C4: the claim that extraction never raises is contradicted by the
code: a date like `31.02.26` passes the `1..31`/`1..12` plausibility
guard but `datetime(2026, 2, 31)` raises `ValueError`, and the exception
escapes `extract_dates` and `is_relevant` (aborting the channel batch in
`monitor_channels`). -/
theorem invalid_calendar_date_raises :
    extract_dates (strN ("31.02.26")) = .error () ∧
    is_relevant (strN ("Горящие билеты: Индия и Гоа, вылетаем 31.02.26, отличная цена!"))
      = .error () := ⟨rfl, rfl⟩

/-- Spec-side reading (modelled from the spec, for comparison with the
source): `is_relevant` rejects `t` "with reason `r`" — the returned
verdict is not-matched and carries an evidence dict whose reason field
is `r`.  The source attaches no evidence dict to rejections, so this
predicate never holds. -/
def specRejectsWithReason (t : List Nat) (r : List Nat) : Prop :=
  ∃ ev : Evidence, is_relevant t = .ok (false, some ev) ∧ ev.reason = r

/-- C5 (counterexample): a one-character text is rejected, but the
verdict is `(False, {})` — no reason code `too-short` (nor any other
evidence) is attached, contrary to the claim. -/
theorem too_short_reason_not_attached :
    is_relevant (strN ("x")) = .ok (false, none) ∧
    ¬ specRejectsWithReason (strN ("x")) (strN ("too-short")) := by
  refine ⟨rfl, ?_⟩
  rintro ⟨ev, h, -⟩
  rw [show is_relevant (strN ("x")) = .ok (false, none) from rfl] at h
  simp at h

/-- C5 (amended): for every text shorter than `MIN_TEXT_LENGTH`,
`is_relevant` returns not-matched with the empty evidence dict,
regardless of content (the code records no reason for rejections). -/
theorem is_relevant_too_short (t : List Nat) (h : t.length < MIN_TEXT_LENGTH) :
    is_relevant t = .ok (false, none) := by
  simp [is_relevant, h]

/-- Witness for the amended C5 theorem at the one-character text. -/
theorem is_relevant_too_short_witness :
    (strN ("x")).length < MIN_TEXT_LENGTH ∧
    is_relevant (strN ("x")) = .ok (false, none) :=
  ⟨by decide, is_relevant_too_short (strN ("x")) (by decide)⟩

/-- A message whose only qualifying departure line is `Вылет из Казани`
(destination, price and month signals would otherwise pass). -/
def depMismatchText : List Nat :=
  strN ("Билеты на Гоа за 60500P, вылет в марте — отличная цена!\nВылет из Казани")

/-- The same offer without any qualifying departure line. -/
def depUnspecText : List Nat :=
  strN ("Билеты на Гоа за 60500P, уже в марте — отличная низкая цена!")

/-- C6 (counterexample): the Kazan departure line is detected as an
explicit non-Moscow departure and the message is rejected, but the
verdict is `(False, {})` — no reason code `explicit-other-departure` is
attached, contrary to the claim. -/
theorem departure_reason_not_attached :
    detect_departure depMismatchText = ⟨true, some false, some (strN ("казани"))⟩ ∧
    ¬ specRejectsWithReason depMismatchText (strN ("explicit-other-departure")) := by
  refine ⟨rfl, ?_⟩
  rintro ⟨ev, h, -⟩
  rw [show is_relevant depMismatchText = .ok (false, none) from rfl] at h
  simp at h

/-- C6 (amended): a text whose (first) qualifying departure line is
`Вылет из Казани` yields the explicit-mismatch signal and `is_relevant`
rejects it with empty evidence (no reason code is recorded), even though
the same text without that line is accepted; a text with no qualifying
departure line yields the unspecified signal, which does not block
acceptance. -/
theorem departure_gate_behavior :
    detect_departure depMismatchText = ⟨true, some false, some (strN ("казани"))⟩ ∧
    is_relevant depMismatchText = .ok (false, none) ∧
    detect_departure depUnspecText = ⟨false, none, none⟩ ∧
    is_relevant depUnspecText = .ok (true, some
      ⟨[strN ("гоа")], [], some 60500, ⟨false, none, none⟩, strN ("march_mentioned")⟩) :=
  ⟨rfl, rfl, rfl, rfl⟩

/-- Folding `Nat.min` stays inside the fold's inputs. -/
theorem foldl_min_mem (xs : List Nat) :
    ∀ (x : Nat), xs.foldl Nat.min x ∈ x :: xs := by
  induction xs with
  | nil => intro x; simp
  | cons y ys ih =>
    intro x
    have h := ih (Nat.min x y)
    rcases List.mem_cons.mp h with h1 | h1
    · rcases min_choice x y with h2 | h2
      · exact List.mem_cons.mpr (Or.inl (h1.trans h2))
      · exact List.mem_cons.mpr (Or.inr (List.mem_cons.mpr (Or.inl (h1.trans h2))))
    · exact List.mem_cons.mpr (Or.inr (List.mem_cons.mpr (Or.inr h1)))

/-- The reported minimum is one of the collected prices. -/
theorem listMin?_mem {l : List Nat} {p : Nat} (h : listMin? l = some p) : p ∈ l := by
  cases l with
  | nil => simp [listMin?] at h
  | cons x xs =>
    simp only [listMin?, Option.some.injEq] at h
    exact h ▸ foldl_min_mem xs x

/-- C8: every price `extract_price` returns lies in `[1000, 500000]`
(it is the minimum of the range-filtered candidates) and `60500P`
yields `60500`; but on text containing `51.400 руб` the source returns
`None`, not the claimed `51400`: the captured group `51.400` is parsed
as `int(float("51.400")) = 51`, which the range filter discards. -/
theorem extract_price_range_and_examples :
    (∀ (t : List Nat) (p : Nat), extract_price t = some p → 1000 ≤ p ∧ p ≤ 500000) ∧
    extract_price (strN ("60500P")) = some 60500 ∧
    extract_price (strN ("Цена: 51.400 руб")) = none := by
  refine ⟨?_, rfl, rfl⟩
  intro t p h
  unfold extract_price at h
  split at h
  · simp at h
  · have hmem := listMin?_mem h
    have hf := (List.mem_filter.mp hmem).2
    exact of_decide_eq_true hf

/-- Witness for the C8 theorem: the range bound applied at `60500P`. -/
theorem extract_price_range_witness : 1000 ≤ 60500 ∧ 60500 ≤ 500000 :=
  extract_price_range_and_examples.1 (strN ("60500P")) 60500 rfl

/-- The dedup pass emits pairwise-distinct `(day, month, year)` keys,
none of which were already seen. -/
theorem dedupDatesAux_keys_nodup (l : List DateInfo) :
    ∀ seen : List (Nat × Nat × Nat),
      ((dedupDatesAux seen l).map dateKey).Nodup ∧
      (∀ d ∈ dedupDatesAux seen l, dateKey d ∉ seen) := by
  induction l with
  | nil => intro seen; exact ⟨by simp [dedupDatesAux], by simp [dedupDatesAux]⟩
  | cons d rest ih =>
    intro seen
    simp only [dedupDatesAux]
    split
    · next hcond =>
      obtain ⟨ih1, ih2⟩ := ih ((d.day, d.month, d.year) :: seen)
      refine ⟨?_, ?_⟩
      · simp only [List.map_cons, List.nodup_cons]
        refine ⟨?_, ih1⟩
        intro hmem
        obtain ⟨d2, hd2, hkey⟩ := List.mem_map.mp hmem
        have := ih2 d2 hd2
        simp only [dateKey] at hkey this
        exact this (by rw [hkey]; exact List.mem_cons_self _ _)
      · intro d2 hd2
        rcases List.mem_cons.mp hd2 with h1 | h1
        · subst h1
          simpa [dateKey] using hcond.1
        · have := ih2 d2 h1
          intro hc
          exact this (List.mem_cons.mpr (Or.inr hc))
    · exact ih seen

/-- Every successful `extract_dates` result has pairwise-distinct
`(day, month, year)` keys. -/
theorem extract_dates_keys_nodup (t : List Nat) (ds : List DateInfo)
    (h : extract_dates t = .ok ds) : (ds.map dateKey).Nodup := by
  unfold extract_dates at h
  split at h
  · simp only [Except.ok.injEq] at h
    subst h
    simp
  · split at h
    · exact absurd h (by simp)
    · split at h
      · exact absurd h (by simp)
      · split at h
        · exact absurd h (by simp)
        · simp only [Except.ok.injEq] at h
          subst h
          exact (dedupDatesAux_keys_nodup _ []).1

/-- C9 (counterexample): on `"встреча 05.03.26 и 5 марта"` the source
returns exactly ONE deduplicated candidate, not the claimed two — both
mentions resolve to `(5, 3, 2026)` (the year-less form is assigned
`TARGET_YEAR = 2026`) and therefore collapse under the
`(day, month, year)` dedup. -/
theorem dedup_dates_not_two :
    extract_dates (strN ("встреча 05.03.26 и 5 марта")) =
      .ok [⟨5, 3, 2026⟩] ∧
    ([(⟨5, 3, 2026⟩ : DateInfo)].length ≠ 2) := ⟨rfl, by decide⟩

/-- C9 (amended): `extract_dates("встреча 05.03.26 и 5 марта")` returns
exactly one deduplicated candidate `(day 5, month 3, year 2026)`, since
both mentions carry year 2026 and mentions collapse exactly when day,
month and year all coincide; in general every returned list has
pairwise-distinct `(day, month, year)` keys. -/
theorem dedup_dates_example_and_key_dedup :
    extract_dates (strN ("встреча 05.03.26 и 5 марта")) =
      .ok [⟨5, 3, 2026⟩] ∧
    (∀ (t : List Nat) (ds : List DateInfo),
      extract_dates t = .ok ds → (ds.map dateKey).Nodup) :=
  ⟨rfl, extract_dates_keys_nodup⟩

/-- Witness for the amended C9 theorem, at the example text itself. -/
theorem dedup_dates_example_witness :
    (([⟨5, 3, 2026⟩] : List DateInfo).map dateKey).Nodup :=
  dedup_dates_example_and_key_dedup.2
    (strN ("встреча 05.03.26 и 5 марта")) [⟨5, 3, 2026⟩] rfl

/-- Every candidate built by the `ДД.ММ` loop carries `TARGET_YEAR`. -/
theorem buildNoYear_year (l : List (Nat × Nat)) :
    ∀ (ds : List DateInfo), buildNoYear l = .ok ds →
      ∀ d ∈ ds, d.year = TARGET_YEAR := by
  induction l with
  | nil =>
    intro ds h
    simp only [buildNoYear, Except.ok.injEq] at h
    subst h
    simp
  | cons c rest ih =>
    intro ds h
    obtain ⟨cd, cm⟩ := c
    simp only [buildNoYear] at h
    split at h
    · split at h
      · split at h
        · next l2 hl2 =>
          simp only [Except.ok.injEq] at h
          subst h
          intro d hd
          rcases List.mem_cons.mp hd with h1 | h1
          · subst h1; rfl
          · exact ih l2 hl2 d h1
        · exact absurd h (by simp)
      · exact absurd h (by simp)
    · exact ih ds h

/-- Every candidate built by a month-name loop carries `TARGET_YEAR`. -/
theorem buildMonthName_year (mnum : Nat) (l : List Nat) :
    ∀ (ds : List DateInfo), buildMonthName mnum l = .ok ds →
      ∀ d ∈ ds, d.year = TARGET_YEAR := by
  induction l with
  | nil =>
    intro ds h
    simp only [buildMonthName, Except.ok.injEq] at h
    subst h
    simp
  | cons cd rest ih =>
    intro ds h
    simp only [buildMonthName] at h
    split at h
    · split at h
      · split at h
        · next l2 hl2 =>
          simp only [Except.ok.injEq] at h
          subst h
          intro d hd
          rcases List.mem_cons.mp hd with h1 | h1
          · subst h1; rfl
          · exact ih l2 hl2 d h1
        · exact absurd h (by simp)
      · exact absurd h (by simp)
    · exact ih ds h

/-- Every candidate of the stem loops carries `TARGET_YEAR`. -/
theorem buildStems_year (ps : List (List Nat × Nat)) (tl : List Nat) :
    ∀ (ds : List DateInfo), buildStems ps tl = .ok ds →
      ∀ d ∈ ds, d.year = TARGET_YEAR := by
  induction ps with
  | nil =>
    intro ds h
    simp only [buildStems, Except.ok.injEq] at h
    subst h
    simp
  | cons p rest ih =>
    intro ds h
    obtain ⟨stem, num⟩ := p
    simp only [buildStems] at h
    split at h
    · exact absurd h (by simp)
    · next l1 hl1 =>
      split at h
      · exact absurd h (by simp)
      · next l2 hl2 =>
        simp only [Except.ok.injEq] at h
        subst h
        intro d hd
        rcases List.mem_append.mp hd with h1 | h1
        · exact buildMonthName_year num _ l1 hl1 d h1
        · exact ih l2 hl2 d h1

/-- C10: dates written without an explicit year — the numeric `D.M` form
and the `"D month-name"` form — are assigned the configured
`TARGET_YEAR` (2026) as their year, not the current calendar year (the
source consults no clock in `extract_dates`). -/
theorem yearless_dates_get_target_year :
    TARGET_YEAR = 2026 ∧
    (∀ (t : List Nat) (ds : List DateInfo), buildNoYear (ddmmRaw t) = .ok ds →
      ∀ d ∈ ds, d.year = TARGET_YEAR) ∧
    (∀ (t : List Nat) (ds : List DateInfo), datesMonthName t = .ok ds →
      ∀ d ∈ ds, d.year = TARGET_YEAR) :=
  ⟨rfl,
   fun t ds h => buildNoYear_year (ddmmRaw t) ds h,
   fun t ds h => buildStems_year monthsRu (lowerStr t) ds h⟩

/-- Witness for the C10 theorem: the year-less date `7.03` is assigned
year 2026. -/
theorem yearless_dates_witness : (⟨7, 3, 2026⟩ : DateInfo).year = TARGET_YEAR :=
  yearless_dates_get_target_year.2.1 (strN ("7.03")) [⟨7, 3, 2026⟩] rfl
    ⟨7, 3, 2026⟩ (List.mem_singleton.mpr rfl)

/-- A message rejected for carrying only April dates. -/
def wrongMonthText : List Nat :=
  strN ("Билеты на Гоа 12.04.26 и 15.04.26 — классная цена на апрель!")

/-- An accepted message and the evidence its verdict carries. -/
def acceptedText : List Nat :=
  strN ("Супер цена в марте: Индия и Гоа, билеты от 4500P — успей!")

/-- The evidence dict of the accepted verdict on `acceptedText`. -/
def acceptedEvidence : Evidence :=
  ⟨[strN ("индия"), strN ("гоа")], [], some 4500, ⟨false, none, none⟩,
   strN ("march_mentioned")⟩

/-- C7 (counterexample): a wrong-month rejection returns `(False, {})`
even though the destination set and the extracted dates were computed
and are nonempty — rejected verdicts carry no evidence at all. -/
theorem rejected_verdict_carries_no_evidence :
    is_relevant wrongMonthText = .ok (false, none) ∧
    destList wrongMonthText = [strN ("гоа")] ∧
    extract_dates wrongMonthText = .ok [⟨12, 4, 2026⟩, ⟨15, 4, 2026⟩] :=
  ⟨rfl, rfl, rfl⟩

/-- C7 (amended): accepted verdicts carry the destination set, the
target-month date subset (empty in the month-mention and no-date
branches), the extracted price, the departure signal and a reason code;
rejected verdicts carry the empty evidence dict; the full list of
extracted dates is not attached to any verdict. -/
theorem verdict_evidence_shape (t : List Nat) (b : Bool) (o : Option Evidence)
    (h : is_relevant t = .ok (b, o)) :
    (b = false → o = none) ∧
    (b = true → ∃ (ev : Evidence) (ds : List DateInfo),
      o = some ev ∧ extract_dates t = .ok ds ∧
      ev.destinations = destList t ∧
      ev.price = extract_price t ∧
      ev.departure = detect_departure t ∧
      (ev.target_month_dates = ds.filter (fun d => d.month == TARGET_MONTH) ∨
        ev.target_month_dates = []) ∧
      (ev.reason = strN ("exact_dates") ∨ ev.reason = strN ("march_mentioned") ∨
        ev.reason = strN ("no_dates"))) := by
  simp only [is_relevant] at h
  split at h
  · simp only [Except.ok.injEq, Prod.mk.injEq] at h
    obtain ⟨hb, ho⟩ := h
    subst hb
    subst ho
    exact ⟨fun _ => rfl, fun hc => nomatch hc⟩
  · split at h
    · simp only [Except.ok.injEq, Prod.mk.injEq] at h
      obtain ⟨hb, ho⟩ := h
      subst hb
      subst ho
      exact ⟨fun _ => rfl, fun hc => nomatch hc⟩
    · split at h
      · simp only [Except.ok.injEq, Prod.mk.injEq] at h
        obtain ⟨hb, ho⟩ := h
        subst hb
        subst ho
        exact ⟨fun _ => rfl, fun hc => nomatch hc⟩
      · split at h
        · simp only [Except.ok.injEq, Prod.mk.injEq] at h
          obtain ⟨hb, ho⟩ := h
          subst hb
          subst ho
          exact ⟨fun _ => rfl, fun hc => nomatch hc⟩
        · split at h
          · exact absurd h (by simp)
          · rename_i all_dates heq
            split at h
            · simp only [Except.ok.injEq, Prod.mk.injEq] at h
              obtain ⟨hb, ho⟩ := h
              subst hb
              subst ho
              refine ⟨fun hc => (nomatch hc), fun _ => ?_⟩
              exact ⟨_, all_dates, rfl, heq, rfl, rfl, rfl, Or.inl rfl, Or.inl rfl⟩
            · split at h
              · simp only [Except.ok.injEq, Prod.mk.injEq] at h
                obtain ⟨hb, ho⟩ := h
                subst hb
                subst ho
                refine ⟨fun hc => (nomatch hc), fun _ => ?_⟩
                exact ⟨_, all_dates, rfl, heq, rfl, rfl, rfl, Or.inr rfl,
                  Or.inr (Or.inl rfl)⟩
              · split at h
                · simp only [Except.ok.injEq, Prod.mk.injEq] at h
                  obtain ⟨hb, ho⟩ := h
                  subst hb
                  subst ho
                  refine ⟨fun hc => (nomatch hc), fun _ => ?_⟩
                  exact ⟨_, all_dates, rfl, heq, rfl, rfl, rfl, Or.inr rfl,
                    Or.inr (Or.inr rfl)⟩
                · simp only [Except.ok.injEq, Prod.mk.injEq] at h
                  obtain ⟨hb, ho⟩ := h
                  subst hb
                  subst ho
                  exact ⟨fun _ => rfl, fun hc => nomatch hc⟩

/-- Witness for the amended C7 theorem: the accepted verdict on
`acceptedText` carries exactly the evidence the theorem describes. -/
theorem verdict_evidence_shape_witness :
    ∃ (ev : Evidence) (ds : List DateInfo),
      (some acceptedEvidence : Option Evidence) = some ev ∧
      extract_dates acceptedText = .ok ds ∧
      ev.destinations = destList acceptedText ∧
      ev.price = extract_price acceptedText ∧
      ev.departure = detect_departure acceptedText ∧
      (ev.target_month_dates = ds.filter (fun d => d.month == TARGET_MONTH) ∨
        ev.target_month_dates = []) ∧
      (ev.reason = strN ("exact_dates") ∨ ev.reason = strN ("march_mentioned") ∨
        ev.reason = strN ("no_dates")) :=
  (verdict_evidence_shape acceptedText true (some acceptedEvidence) rfl).2 rfl

/-- C1: end-to-end run guarantee.  For a source with no prior cursor and
three fetched messages with ids 10, 11, 12 of which only id 11 is
relevant, one run of the channel pipeline yields exactly one matched
verdict (for id 11), marks all three ids processed, and advances the
cursor to 12, the maximum id visited, although two of the three messages
did not match; a second run over the same three messages yields zero
verdicts and leaves the cursor at 12. -/
theorem pipeline_end_to_end (ch t10 t11 t12 : List Nat) (ev : Evidence)
    (h10 : is_relevant t10 = .ok (false, none)) (h10n : t10 ≠ [])
    (h11 : is_relevant t11 = .ok (true, some ev)) (h11n : t11 ≠ [])
    (h12 : is_relevant t12 = .ok (false, none)) (h12n : t12 ≠ []) :
    (runChannel [] ch [⟨10, some t10⟩, ⟨11, some t11⟩, ⟨12, some t12⟩]).2
      = [⟨11, some ev⟩] ∧
    is_duplicate (runChannel [] ch [⟨10, some t10⟩, ⟨11, some t11⟩, ⟨12, some t12⟩]).1
      ch 10 = true ∧
    is_duplicate (runChannel [] ch [⟨10, some t10⟩, ⟨11, some t11⟩, ⟨12, some t12⟩]).1
      ch 11 = true ∧
    is_duplicate (runChannel [] ch [⟨10, some t10⟩, ⟨11, some t11⟩, ⟨12, some t12⟩]).1
      ch 12 = true ∧
    get_last_id (runChannel [] ch [⟨10, some t10⟩, ⟨11, some t11⟩, ⟨12, some t12⟩]).1
      ch = 12 ∧
    (runChannel (runChannel [] ch [⟨10, some t10⟩, ⟨11, some t11⟩, ⟨12, some t12⟩]).1
      ch [⟨10, some t10⟩, ⟨11, some t11⟩, ⟨12, some t12⟩]).2 = [] ∧
    get_last_id (runChannel
      (runChannel [] ch [⟨10, some t10⟩, ⟨11, some t11⟩, ⟨12, some t12⟩]).1
      ch [⟨10, some t10⟩, ⟨11, some t11⟩, ⟨12, some t12⟩]).1 ch = 12 := by
  have hr1 : runChannel [] ch [⟨10, some t10⟩, ⟨11, some t11⟩, ⟨12, some t12⟩]
      = ([(ch, { last_id := some 12, processed_ids := some [10, 11, 12] })],
         [⟨11, some ev⟩]) := by
    simp [runChannel, sortById, insertById, processMsgs, is_duplicate, lookupCh,
      mark_processed, updateCh, get_last_id, set_last_id, pyMaxId,
      h10, h11, h12, h10n, h11n, h12n]
  have hr2 : runChannel
      [(ch, { last_id := some 12, processed_ids := some [10, 11, 12] })] ch
        [⟨10, some t10⟩, ⟨11, some t11⟩, ⟨12, some t12⟩]
      = ([(ch, { last_id := some 12, processed_ids := some [10, 11, 12] })], []) := by
    simp [runChannel, sortById, insertById, processMsgs, is_duplicate, lookupCh,
      mark_processed, updateCh, get_last_id, set_last_id, pyMaxId]
  rw [hr1]
  refine ⟨rfl, ?_, ?_, ?_, ?_, ?_, ?_⟩ <;>
    simp [hr2, is_duplicate, lookupCh, get_last_id]

/-- The non-matching short message of the concrete end-to-end run. -/
def plainText1 : List Nat := strN ("короткий")

/-- The matching message of the concrete end-to-end run. -/
def relevantText : List Nat :=
  strN ("Горящий тур: Гоа, Индия — билеты за 52300P, вылет в марте!")

/-- The other non-matching short message of the concrete run. -/
def plainText2 : List Nat := strN ("тоже короткое сообщение")

/-- The evidence of the accepted verdict on `relevantText`. -/
def relevantEvidence : Evidence :=
  ⟨[strN ("гоа"), strN ("индия")], [], some 52300, ⟨false, none, none⟩,
   strN ("march_mentioned")⟩

/-- Witness for the C1 theorem: a concrete channel and three concrete
messages of which only id 11 is relevant. -/
theorem pipeline_end_to_end_witness :
    (runChannel [] chanA
      [⟨10, some plainText1⟩, ⟨11, some relevantText⟩, ⟨12, some plainText2⟩]).2
      = [⟨11, some relevantEvidence⟩] ∧
    is_duplicate (runChannel [] chanA
      [⟨10, some plainText1⟩, ⟨11, some relevantText⟩, ⟨12, some plainText2⟩]).1
      chanA 10 = true ∧
    is_duplicate (runChannel [] chanA
      [⟨10, some plainText1⟩, ⟨11, some relevantText⟩, ⟨12, some plainText2⟩]).1
      chanA 11 = true ∧
    is_duplicate (runChannel [] chanA
      [⟨10, some plainText1⟩, ⟨11, some relevantText⟩, ⟨12, some plainText2⟩]).1
      chanA 12 = true ∧
    get_last_id (runChannel [] chanA
      [⟨10, some plainText1⟩, ⟨11, some relevantText⟩, ⟨12, some plainText2⟩]).1
      chanA = 12 ∧
    (runChannel (runChannel [] chanA
      [⟨10, some plainText1⟩, ⟨11, some relevantText⟩, ⟨12, some plainText2⟩]).1
      chanA [⟨10, some plainText1⟩, ⟨11, some relevantText⟩, ⟨12, some plainText2⟩]).2
      = [] ∧
    get_last_id (runChannel (runChannel [] chanA
      [⟨10, some plainText1⟩, ⟨11, some relevantText⟩, ⟨12, some plainText2⟩]).1
      chanA [⟨10, some plainText1⟩, ⟨11, some relevantText⟩, ⟨12, some plainText2⟩]).1
      chanA = 12 :=
  pipeline_end_to_end chanA plainText1 relevantText plainText2 relevantEvidence
    rfl (by decide) rfl (by decide) rfl (by decide)
